import Mathlib

/-
Verification of the tetratelabs/telemetry scope registry, level state and
logger composition algebra against its natural-language specification.

The Go code is shallowly embedded: loggers become records, the shared
atomic int32 level cells become an explicit heap of integer cells
(`Heap`), `interface{}` log values become the inductive `Val`, and each
mutating method becomes a pure function threading the heap.  Dynamic Go
values such as attached metrics and emit functions are tracked by the
observable facts the claims need (whether a metric is attached, how many
observations of value 1 it receives, whether the emit function is
invoked).
-/

set_option autoImplicit false

namespace Telemetry

/-! ## telemetry.Level (level.go second half of metric_test.go combined file)

`Level` is an `int32` enumeration; we embed it as `Int` with the four
defined values 0, 1, 5, 10. -/

def LevelNone : Int := 0
def LevelError : Int := 1
def LevelInfo : Int := 5
def LevelDebug : Int := 10

/-- `Level.String`: lookup in the `levelToString` map; a Go map miss yields
the zero value `""`. -/
def levelString (l : Int) : String :=
  if l = 0 then "none"
  else if l = 1 then "error"
  else if l = 5 then "info"
  else if l = 10 then "debug"
  else ""

/-- `FromLevel`: lookup in the `stringToLevel` map, returning the value and
the `ok` flag; a miss yields the zero value `LevelNone` and `false`. -/
def fromLevel (s : String) : Int × Bool :=
  if s = "none" then (0, true)
  else if s = "error" then (1, true)
  else if s = "info" then (5, true)
  else if s = "debug" then (10, true)
  else (0, false)

/-! ## Heap of level cells

Each Go `*int32` level slot is a cell in this heap; sharing a cell models
sharing the pointer. -/

structure Heap where
  cells : Nat → Int
  next : Nat

def Heap.alloc (h : Heap) (v : Int) : Heap × Nat :=
  ({ cells := fun i => if i = h.next then v else h.cells i, next := h.next + 1 }, h.next)

def Heap.set (h : Heap) (i : Nat) (v : Int) : Heap :=
  { h with cells := fun j => if j = i then v else h.cells j }

/-- The empty heap used by concrete scenarios. -/
def heap0 : Heap := { cells := fun _ => 0, next := 0 }

/-! ## Log values

Go passes key-value pairs as `...interface{}`; the claims only need string
values, non-string values and the zero `interface{}` value (`nil`), which
Go's `make` fills a fresh slice with. -/

inductive Val where
  | str (s : String)
  | int (n : Int)
  | vnil
  deriving DecidableEq, Repr

/-- Go's built-in `copy(dst, src)`: the first `min |dst| |src|` elements of
`src` land in the prefix of `dst`, the rest of `dst` is unchanged. -/
def goCopy (dst src : List Val) : List Val :=
  src.take dst.length ++ dst.drop src.length

/-- The odd-argument rule shared by `With`, `KeyValuesToContext` and
`scope.With`: an odd list of key-values gets the `"(MISSING)"` sentinel
appended. -/
def padMissing (kvs : List Val) : List Val :=
  if kvs.length % 2 = 0 then kvs else kvs ++ [Val.str "(MISSING)"]

/-- The retention loop of `Logger.With` / `scope.With`: walk the (padded)
pairs and keep exactly those whose key is string-typed. -/
def retainPairs : List Val → List Val
  | Val.str k :: v :: rest => Val.str k :: v :: retainPairs rest
  | _ :: _ :: rest => retainPairs rest
  | _ => []

/-! ## The function-package Logger (function/logger.go, embedded after the
tests in src/function/logger_test.go) -/

structure FLogger where
  /-- `args`: the key-value pairs added to the logger itself. -/
  args : List Val
  /-- the key-value pairs retrievable from the attached `ctx` via
  `KeyValuesFromContext` (`NewLogger` attaches `context.Background()`,
  which carries none). -/
  ctxKvs : List Val
  /-- whether `metric != nil`. -/
  hasMetric : Bool
  /-- the cell of the shared `level *int32`. -/
  levelCell : Nat
  /-- `scopedLevels`: the logger's own `sync.Map` of per-scope levels,
  deep-copied by `Clone` via `copySyncMap`. -/
  scopedLevels : List (String × Int)
  /-- whether `emitFunc != nil`. -/
  hasEmit : Bool
  deriving DecidableEq

/-- `NewLogger`: level cell allocated at `LevelInfo`, background context. -/
def fnewLogger (h : Heap) (hasEmit : Bool) : Heap × FLogger :=
  let a := h.alloc 5
  (a.1, { args := [], ctxKvs := [], hasMetric := false, levelCell := a.2,
          scopedLevels := [], hasEmit := hasEmit })

/-- `Logger.scope`: scan `args` at every index for the string `"scope"`
followed by a string value; return that value, else `""`. -/
def scopeOf : List Val → String
  | Val.str "scope" :: Val.str v :: _ => v
  | _ :: rest => scopeOf rest
  | [] => ""

/-- `sync.Map.Store`: insert or replace the binding for `k`. -/
def storeScoped : List (String × Int) → String → Int → List (String × Int)
  | [], k, v => [(k, v)]
  | (k', v') :: rest, k, v =>
      if k' = k then (k, v) :: rest else (k', v') :: storeScoped rest k v

/-- `Logger.Level`: prefer the `scopedLevels` entry for `l.scope()`, else
the shared cell. -/
def flevel (h : Heap) (l : FLogger) : Int :=
  match l.scopedLevels.lookup (scopeOf l.args) with
  | some v => v
  | none => h.cells l.levelCell

/-- The clamp switch shared verbatim by `Logger.SetLevel` (function
package) and `scope.SetLevel`. -/
def clampLevel (lvl : Int) : Int :=
  if lvl < 1 then 0
  else if lvl < 5 then 1
  else if lvl < 10 then 5
  else 10

/-- `Logger.SetLevel`: clamp, then store in the shared cell when no scope
name is found in `args`, else in the logger's own `scopedLevels` map. -/
def fsetLevel (h : Heap) (l : FLogger) (lvl : Int) : Heap × FLogger :=
  let c := clampLevel lvl
  let sc := scopeOf l.args
  if sc = "" then (h.set l.levelCell c, l)
  else (h, { l with scopedLevels := storeScoped l.scopedLevels sc c })

/-- `Logger.Clone` as written: every field is copied by value and the new
logger keeps `level: l.level` — the level cell is shared, the heap is not
touched. -/
def fclone (h : Heap) (l : FLogger) : Heap × FLogger := (h, l)

/-- `Logger.With`: empty input returns the receiver; otherwise pad, clone,
and append the string-keyed pairs to `args`. -/
def fwith (h : Heap) (l : FLogger) (kvs : List Val) : Heap × FLogger :=
  if kvs = [] then (h, l)
  else
    let padded := padMissing kvs
    let r := fclone h l
    (r.1, { r.2 with args := r.2.args ++ retainPairs padded })

/-- `Logger.Context`: clone with the given context attached (replacing the
prior one). -/
def fcontext (h : Heap) (l : FLogger) (ctx : List Val) : Heap × FLogger :=
  let r := fclone h l
  (r.1, { r.2 with ctxKvs := ctx })

/-- `Logger.Metric`: clone with the given metric attached (`m = false`
models attaching `nil`, as `TestClone` does). -/
def fmetric (h : Heap) (l : FLogger) (m : Bool) : Heap × FLogger :=
  let r := fclone h l
  (r.1, { r.2 with hasMetric := m })

/-- `Logger.enabled`: an emit function is present and the call's level is
at most the configured one. -/
def fenabled (h : Heap) (l : FLogger) (lvl : Int) : Bool :=
  l.hasEmit && decide (lvl ≤ flevel h l)

/-- Observable outcome of one `Debug`/`Info`/`Error` call:
how many observations of value 1 the attached metric receives
(`RecordContext(ctx, 1)`), and whether `emitFunc` is invoked. -/
structure EmitRecord where
  metricObservations : Nat
  emitted : Bool
  deriving DecidableEq

/-- `Logger.Debug`: no metric interaction; emits when enabled for 10. -/
def fdebug (h : Heap) (l : FLogger) : EmitRecord :=
  { metricObservations := 0, emitted := fenabled h l 10 }

/-- `Logger.Info`: the metric is recorded first, unconditionally; the text
path is gated by `enabled(LevelInfo)`. -/
def finfo (h : Heap) (l : FLogger) : EmitRecord :=
  { metricObservations := if l.hasMetric then 1 else 0, emitted := fenabled h l 5 }

/-- `Logger.Error`: the metric is recorded first, unconditionally; the text
path is gated by `enabled(LevelError)`. -/
def ferror (h : Heap) (l : FLogger) : EmitRecord :=
  { metricObservations := if l.hasMetric then 1 else 0, emitted := fenabled h l 1 }

/-! ## The level-package wrapper (src/level/level.go)

`level.Wrap` puts a plain backend behind an atomically read `lvl *int32`
cell; `wrapper.With/Context/Metric` build a new wrapper around the
decorated inner logger while sharing the cell. -/

/-- The plain `telemetry.Logger` wrapped by `level.Wrap`, seen through
the only capabilities the wrapper forwards to it: accepting `With`,
`Context` and `Metric` decorations.  The wrapper merely threads these
calls through, so the inner implementation is modelled by the
decorations it has accumulated. -/
structure PlainLogger where
  kvs : List Val
  ctxKvs : List Val
  hasMetric : Bool
  deriving DecidableEq

/-- The inner logger's `With`, as the wrapper delegates to it. -/
def plainWith (p : PlainLogger) (kvs : List Val) : PlainLogger :=
  { p with kvs := p.kvs ++ kvs }

/-- The inner logger's `Context`, as the wrapper delegates to it. -/
def plainContext (p : PlainLogger) (ctx : List Val) : PlainLogger :=
  { p with ctxKvs := ctx }

/-- The inner logger's `Metric`, as the wrapper delegates to it. -/
def plainMetric (p : PlainLogger) (m : Bool) : PlainLogger :=
  { p with hasMetric := m }

structure Wrapper where
  logger : PlainLogger
  lvlCell : Nat
  deriving DecidableEq

/-- `level.Wrap` on a logger without level support: the cell starts at
`Debug`. -/
def wrap (h : Heap) (l : PlainLogger) : Heap × Wrapper :=
  let a := h.alloc 10
  (a.1, { logger := l, lvlCell := a.2 })

/-- `wrapper.With`: a new wrapper around `l.logger.With(...)`, keeping
`lvl: l.lvl` — the cell is shared. -/
def wWith (w : Wrapper) (kvs : List Val) : Wrapper :=
  { logger := plainWith w.logger kvs, lvlCell := w.lvlCell }

/-- `wrapper.Context`: a new wrapper around `l.logger.Context(ctx)`,
sharing the cell. -/
def wContext (w : Wrapper) (ctx : List Val) : Wrapper :=
  { logger := plainContext w.logger ctx, lvlCell := w.lvlCell }

/-- `wrapper.Metric`: a new wrapper around `l.logger.Metric(m)`, sharing
the cell. -/
def wMetric (w : Wrapper) (m : Bool) : Wrapper :=
  { logger := plainMetric w.logger m, lvlCell := w.lvlCell }

/-- The clamp of `wrapper.SetLevel`: note there is no branch producing
`None`; everything below `Info` settles at `Error`. -/
def wrapperClamp (lvl : Int) : Int :=
  if lvl < 5 then 1
  else if lvl < 10 then 5
  else 10

/-- `wrapper.SetLevel`: clamp and store in the shared cell. -/
def wSetLevel (h : Heap) (w : Wrapper) (lvl : Int) : Heap :=
  h.set w.lvlCell (wrapperClamp lvl)

/-- `wrapper.Level`: atomic read of the shared cell. -/
def wLevel (h : Heap) (w : Wrapper) : Int := h.cells w.lvlCell

/-! ## The scope package (second half of src/unnamed/part_001)

A `scope` is unbound while `logger == nil`; its own `kvs`, `ctx`,
`metric` and `level` fields matter only until `UseLogger` replays them
onto the backend and clears them. -/

structure GoScope where
  /-- the backend logger once bound, `nil` before. -/
  logger : Option FLogger
  kvs : List Val
  /-- the attached context's key-values; `Register` attaches
  `context.Background()` (no pairs); cleared to `nil` by the replay. -/
  ctx : Option (List Val)
  /-- whether `metric != nil`. -/
  metric : Bool
  name : String
  description : String
  /-- the `level *int32` cell; `none` models the `nil` pointer the replay
  leaves behind. -/
  levelCell : Option Nat
  deriving DecidableEq

/-- The unbound read of `scope.Level` (`atomic.LoadInt32(s.level)`); the
`none` branch is unreachable in the package since the pointer is only
nilled once the scope is bound. -/
def scopeLevelUnbound (h : Heap) (s : GoScope) : Int :=
  match s.levelCell with
  | some c => h.cells c
  | none => 0

/-- `scope.Level`: delegate when bound, else read the own cell. -/
def scopeLevel (h : Heap) (s : GoScope) : Int :=
  match s.logger with
  | some l => flevel h l
  | none => scopeLevelUnbound h s

/-- `scope.SetLevel`: delegate when bound; else clamp (same switch as the
function logger) and store in the own cell. -/
def scopeSetLevel (h : Heap) (s : GoScope) (lvl : Int) : Heap × GoScope :=
  match s.logger with
  | some l =>
      let r := fsetLevel h l lvl
      (r.1, { s with logger := some r.2 })
  | none =>
      match s.levelCell with
      | some c => (h.set c (clampLevel lvl), s)
      | none => (h, s)

/-- `scope.With` on an unbound scope (`s.logger == nil`; the bound branch
returns `s.logger.With(keyValuePairs...)`, i.e. `fwith`).  Translated
literally: the new `kvs` buffer has `len(s.kvs)` zeroed slots, is filled
by `copy(sc.kvs, keyValuePairs)` — the *argument* pairs, not the
parent's — and then the string-keyed argument pairs are appended. -/
def scopeWith (s : GoScope) (kvs : List Val) : GoScope :=
  if kvs = [] then s
  else
    let padded := padMissing kvs
    { s with kvs := goCopy (List.replicate s.kvs.length Val.vnil) padded ++ retainPairs padded }

/-- `scope.Clone`: clone the backend when bound (sharing its level cell,
see `fclone`); all own fields, including the `level` pointer, are copied
as values. -/
def scopeClone (h : Heap) (s : GoScope) : Heap × GoScope :=
  match s.logger with
  | some l =>
      let r := fclone h l
      (r.1, { s with logger := some r.2 })
  | none => (h, s)

/-- Observable outcome of `scope.Debug/Info/Error`: whether the message is
forwarded to the backend and whether the call panics. -/
structure CallOutcome where
  forwarded : Bool
  panicked : Bool
  deriving DecidableEq

/-- `scope.Debug` run with the given value of the package flag
`PanicOnUninitialized`: forward when bound; then panic whenever the flag
is set (the check is not guarded by `s.logger == nil`). -/
def scopeDebugCall (s : GoScope) (flag : Bool) : CallOutcome :=
  { forwarded := s.logger.isSome, panicked := flag }

/-- `scope.Info`, same shape as `scope.Debug`. -/
def scopeInfoCall (s : GoScope) (flag : Bool) : CallOutcome :=
  { forwarded := s.logger.isSome, panicked := flag }

/-- `scope.Error`, same shape as `scope.Debug`. -/
def scopeErrorCall (s : GoScope) (flag : Bool) : CallOutcome :=
  { forwarded := s.logger.isSome, panicked := flag }

/-! ## The registry and `UseLogger`

Scope objects live in `scopeObjs` and are addressed by index, modelling
the Go pointers shared between the `scopes` table and the
`uninitialized` pending-decorations table. -/

structure World where
  heap : Heap
  scopeObjs : List GoScope
  /-- the `scopes` map: name to scope pointer. -/
  scopes : List (String × Nat)
  /-- the `uninitialized` pending map (name to pointers); `none` models the
  `nil` map `UseLogger` leaves behind. -/
  pending : Option (List (String × List Nat))
  defaultLogger : Option FLogger

/-- One iteration of `UseLogger`'s inner replay loop: decorate the
accumulating logger `l` with the scope's pending context, metric and
key-values, assign the scope's level onto it, bind the scope to it and
clear the now-redundant fields. -/
def replayScope (h : Heap) (l : FLogger) (sc : GoScope) : Heap × FLogger × GoScope :=
  let r1 := match sc.ctx with
    | some c => fcontext h l c
    | none => (h, l)
  let r2 := if sc.metric then fmetric r1.1 r1.2 true else r1
  let r3 := if 0 < sc.kvs.length then fwith r2.1 r2.2 sc.kvs else r2
  let r4 := fsetLevel r3.1 r3.2 (scopeLevel r3.1 sc)
  (r4.1, r4.2,
   { sc with logger := some r4.2, kvs := [], ctx := none, metric := false, levelCell := none })

/-- The inner loop over one pending group, threading the accumulating
logger through the scope objects. -/
def replayGroupAux : Heap → FLogger → List GoScope → List Nat → Heap × List GoScope
  | h, _, objs, [] => (h, objs)
  | h, l, objs, i :: rest =>
      match objs.get? i with
      | none => replayGroupAux h l objs rest
      | some sc =>
          let r := replayScope h l sc
          replayGroupAux r.1 r.2.1 (objs.set i r.2.2) rest

/-- The outer loop of `UseLogger`: one fresh `defaultLogger.Clone()` per
pending scope name. -/
def replayGroups : Heap → FLogger → List GoScope → List (String × List Nat) → Heap × List GoScope
  | h, _, objs, [] => (h, objs)
  | h, dl, objs, (_, idxs) :: rest =>
      let r0 := fclone h dl
      let r := replayGroupAux r0.1 r0.2 objs idxs
      replayGroups r.1 dl r.2 rest

/-- `UseLogger`: return unchanged on a nil backend or when a default
logger is already installed; otherwise install a clone of the backend,
replay every pending group and drop the pending table. -/
def useLogger (w : World) (b : Option FLogger) : World :=
  match b with
  | none => w
  | some backend =>
      if w.defaultLogger.isSome then w
      else
        let r0 := fclone w.heap backend
        let r := replayGroups r0.1 r0.2 w.scopeObjs (w.pending.getD [])
        { w with heap := r.1, scopeObjs := r.2, defaultLogger := some r0.2, pending := none }

/-! ## Definitions taken from the specification's words, for comparison
with the code. -/

/-- The clamp of spec section 3: below `Error` settles at `None`, below
`Info` at `Error`, `[Info, Debug)` at `Info`, at or above `Debug` at
`Debug` (from the spec's words). -/
def specClamp (L : Int) : Int :=
  if L < 1 then 0
  else if L < 5 then 1
  else if L < 10 then 5
  else 10

/-- The key-value list the spec assigns to `With` on an unbound scope:
the parent's key-values concatenated with the retained argument pairs
(from the spec's words). -/
def specWithKvs (parent q : List Val) : List Val :=
  parent ++ retainPairs (padMissing q)

/-- From claim C9's words: the key-value list holds a string value stored
under the key `"scope"` (keys at even positions). -/
def hasScopePair : List Val → Bool
  | Val.str "scope" :: Val.str _ :: _ => true
  | _ :: _ :: rest => hasScopePair rest
  | _ => false

/-! ## Shared lemmas -/

theorem storeScoped_lookup (m : List (String × Int)) (k : String) (v : Int) :
    (storeScoped m k v).lookup k = some v := by
  induction m with
  | nil => simp [storeScoped, List.lookup]
  | cons p rest ih =>
      by_cases hp : p.1 = k
      · simp [storeScoped, hp, List.lookup]
      · have hk : (k == p.1) = false := beq_eq_false_iff_ne.mpr fun hh => hp hh.symm
        simp [storeScoped, hp, List.lookup, hk, ih]

theorem clampLevel_eq_specClamp : ∀ L : Int, clampLevel L = specClamp L :=
  fun _ => rfl

/-- The round trip shared by several claims: on a logger whose argument
list yields no scope name, `SetLevel` writes the shared cell and `Level`
reads back the clamp. -/
theorem fsetLevel_flevel_unscoped (h : Heap) (l : FLogger) (lvl : Int)
    (h1 : scopeOf l.args = "") (h2 : l.scopedLevels.lookup "" = none) :
    flevel (fsetLevel h l lvl).1 (fsetLevel h l lvl).2 = clampLevel lvl := by
  simp [fsetLevel, h1, flevel, h2, Heap.set]

/-! ## Concrete scenario states -/

/-- A freshly registered, unbound scope named `"s"`: `Register` seeds
`kvs` with `("scope", name)`, attaches `context.Background()` and
allocates the level cell (here cell 0). -/
def scEx : GoScope :=
  { logger := none, kvs := [Val.str "scope", Val.str "s"], ctx := some [], metric := false,
    name := "s", description := "test scope", levelCell := some 0 }

/-- The same scope once bound to a backend. -/
def scBound : GoScope := { scEx with logger := some (fnewLogger heap0 false).2 }

/-! ## C1 — TestClone's scenario evaluated on the code -/

def c1base : Heap × FLogger := fnewLogger heap0 false

/-- `withvalues := logger.With("key", "value").Context(ctx).Metric(nil)`. -/
def c1wv : Heap × FLogger :=
  let r1 := fwith c1base.1 c1base.2 [Val.str "key", Val.str "value"]
  let r2 := fcontext r1.1 r1.2 []
  fmetric r2.1 r2.2 false

/-- `cloned := withvalues.Clone()`. -/
def c1cloned : Heap × FLogger := fclone c1wv.1 c1wv.2

/-- The heap after `logger.SetLevel(telemetry.LevelDebug)`. -/
def c1after : Heap := (fsetLevel c1cloned.1 c1base.2 10).1

/-- C1: `Clone` does NOT sever level control.  `Logger.Clone` keeps
`level: l.level` (and `scope.Clone` keeps `level: s.level`), so the clone
shares the original's level cell; in TestClone's own scenario, after
`logger.SetLevel(Debug)` the clone reads `Debug` where the test demands
the `Info` it was cloned at. -/
theorem clone_shares_level_cell :
    (∀ (h : Heap) (l : FLogger), (fclone h l).2.levelCell = l.levelCell ∧ (fclone h l).1 = h) ∧
    (∀ (h : Heap) (s : GoScope), (scopeClone h s).2.levelCell = s.levelCell) ∧
    flevel c1after c1base.2 = LevelDebug ∧
    flevel c1after c1wv.2 = LevelDebug ∧
    flevel c1after c1cloned.2 = LevelDebug ∧
    flevel c1after c1cloned.2 ≠ LevelInfo := by
  refine ⟨fun h l => ⟨rfl, rfl⟩, ?_, by decide, by decide, by decide, by decide⟩
  intro h s
  cases hs : s.logger <;> simp [scopeClone, fclone, hs]

/-! ## C2 — the SetLevel/Level clamp -/

/-- A fresh plain backend with no decorations yet. -/
def plain0 : PlainLogger := { kvs := [], ctxKvs := [], hasMetric := false }

def c2w : Heap × Wrapper := wrap heap0 plain0

/-- C2 counterexample: the level-package wrapper maps a requested level of
-1 to `Error`, not to the `None` the claim states. -/
theorem wrapper_negative_level_clamps_to_error :
    wLevel (wSetLevel c2w.1 c2w.2 (-1)) c2w.2 = LevelError ∧
    wLevel (wSetLevel c2w.1 c2w.2 (-1)) c2w.2 ≠ specClamp (-1) := by decide

/-- C2 (amended): the scope logger and the function-package logger clamp
exactly as spec section 3 states; the level-package wrapper instead
settles every requested level below `Info` — including -1 — at `Error`
and never yields `None`. -/
theorem setLevel_level_clamp :
    (∀ L : Int, clampLevel L = specClamp L) ∧
    (∀ (h : Heap) (l : FLogger) (L : Int), scopeOf l.args = "" →
      l.scopedLevels.lookup "" = none →
      flevel (fsetLevel h l L).1 (fsetLevel h l L).2 = specClamp L) ∧
    (∀ (h : Heap) (s : GoScope) (L : Int) (c : Nat), s.logger = none → s.levelCell = some c →
      scopeLevel (scopeSetLevel h s L).1 (scopeSetLevel h s L).2 = specClamp L) ∧
    (∀ (h : Heap) (w : Wrapper) (L : Int),
      wLevel (wSetLevel h w L) w = wrapperClamp L ∧
      wrapperClamp L = (if L < 5 then LevelError else if L < 10 then LevelInfo else LevelDebug)) := by
  refine ⟨clampLevel_eq_specClamp, ?_, ?_, ?_⟩
  · intro h l L h1 h2
    rw [fsetLevel_flevel_unscoped h l L h1 h2, clampLevel_eq_specClamp]
  · intro h s L c hs hc
    simp [scopeSetLevel, hs, hc, scopeLevel, scopeLevelUnbound, Heap.set,
      clampLevel_eq_specClamp]
  · intro h w L
    exact ⟨by simp [wLevel, wSetLevel, Heap.set], rfl⟩

theorem setLevel_level_clamp_witness :
    flevel (fsetLevel heap0 (fnewLogger heap0 false).2 3).1
        (fsetLevel heap0 (fnewLogger heap0 false).2 3).2 = specClamp 3 ∧
    scopeLevel (scopeSetLevel heap0 scEx (-1)).1 (scopeSetLevel heap0 scEx (-1)).2
        = specClamp (-1) :=
  ⟨setLevel_level_clamp.2.1 heap0 (fnewLogger heap0 false).2 3 rfl rfl,
   setLevel_level_clamp.2.2.1 heap0 scEx (-1) 0 rfl rfl⟩

/-! ## C3 — scope.With on an unbound scope -/

/-- C3: `scope.With` does not carry the parent's key-values.  The buffer
sized for the parent's pairs is filled by `copy(sc.kvs, keyValuePairs)` —
the argument pairs — so a scope seeded with `("scope", "s")` decorated
with `("k", "v")` ends up with `[k v k v]` instead of the
`[scope s k v]` the spec states, while level slot, context and metric
are kept. -/
theorem scope_with_overwrites_parent_kvs :
    (scopeWith scEx [Val.str "k", Val.str "v"]).kvs
        = [Val.str "k", Val.str "v", Val.str "k", Val.str "v"] ∧
    (scopeWith scEx [Val.str "k", Val.str "v"]).kvs
        ≠ specWithKvs scEx.kvs [Val.str "k", Val.str "v"] ∧
    (scopeWith scEx [Val.str "k", Val.str "v"]).levelCell = scEx.levelCell ∧
    (scopeWith scEx [Val.str "k", Val.str "v"]).ctx = scEx.ctx ∧
    (scopeWith scEx [Val.str "k", Val.str "v"]).metric = scEx.metric := by
  decide

/-! ## C4 — metrics are not level-gated -/

/-- C4: with a metric attached, every `Info` and every `Error` call
records exactly one observation of value 1 on it no matter what the
effective level is, `Debug` never touches the metric, and the text path
runs only when the call's intrinsic level is at most the effective
level. -/
theorem metric_not_level_gated :
    ∀ (h : Heap) (l : FLogger), l.hasMetric = true →
      (finfo h l).metricObservations = 1 ∧
      (ferror h l).metricObservations = 1 ∧
      (fdebug h l).metricObservations = 0 ∧
      ((finfo h l).emitted = true → LevelInfo ≤ flevel h l) ∧
      ((ferror h l).emitted = true → LevelError ≤ flevel h l) ∧
      ((fdebug h l).emitted = true → LevelDebug ≤ flevel h l) := by
  intro h l hm
  refine ⟨by simp [finfo, hm], by simp [ferror, hm], rfl, ?_, ?_, ?_⟩ <;>
  · intro he
    simp only [finfo, ferror, fdebug, fenabled, Bool.and_eq_true, decide_eq_true_eq,
      LevelInfo, LevelError, LevelDebug] at he ⊢
    exact he.2

def c4l : FLogger := (fmetric (fnewLogger heap0 true).1 (fnewLogger heap0 true).2 true).2

theorem metric_not_level_gated_witness :
    (finfo (fnewLogger heap0 true).1 c4l).metricObservations = 1 ∧
    (fdebug (fnewLogger heap0 true).1 c4l).metricObservations = 0 :=
  ⟨(metric_not_level_gated (fnewLogger heap0 true).1 c4l rfl).1,
   (metric_not_level_gated (fnewLogger heap0 true).1 c4l rfl).2.2.1⟩

/-! ## C5 — decoration and the shared level -/

def c5base : Heap × FLogger := fnewLogger heap0 false

/-- A logger carrying the scope name `"a"`, as the bound scope machinery
produces via `defaultLogger.With(Key, name)`. -/
def c5a : Heap × FLogger := fwith c5base.1 c5base.2 [Val.str "scope", Val.str "a"]

/-- A decorated copy of `c5a` made before the `SetLevel` call. -/
def c5m : Heap × FLogger := fwith c5a.1 c5a.2 [Val.str "k", Val.str "v"]

/-- The state after `SetLevel(Debug)` on `c5a`. -/
def c5r : Heap × FLogger := fsetLevel c5m.1 c5a.2 10

/-- C5 counterexample: a logger whose key-values carry a scope name
stores its level in its own per-scope map; the decorated copy made just
before still reads the shared cell, so the lineage does not observe the
identical value. -/
theorem scoped_setLevel_not_observed_by_copy :
    flevel c5r.1 c5r.2 = LevelDebug ∧
    flevel c5r.1 c5m.2 = LevelInfo ∧
    flevel c5r.1 c5m.2 ≠ flevel c5r.1 c5r.2 ∧
    flevel c5r.1 c5base.2 = LevelInfo := by decide

/-- C5 (amended): `With`, `Context` and `Metric` — on the level-package
wrapper and on the function-package logger alike — touch neither the
heap nor any existing logger and keep the parent's level cell.  In a
wrapper lineage every member observes a `SetLevel` anywhere in the
lineage identically and immediately, exactly as the claim states.  In a
function-logger lineage the same holds for the loggers whose key-values
yield no scope name; a function logger that does carry a scope name
instead stores the level privately in its own per-scope map, which
siblings and previously made decorated copies do not observe (see the
counterexample). -/
theorem decoration_preserves_shared_level :
    (∀ (w : Wrapper) (kvs : List Val), (wWith w kvs).lvlCell = w.lvlCell) ∧
    (∀ (w : Wrapper) (c : List Val), (wContext w c).lvlCell = w.lvlCell) ∧
    (∀ (w : Wrapper) (m : Bool), (wMetric w m).lvlCell = w.lvlCell) ∧
    (∀ (h : Heap) (w w' : Wrapper) (lvl : Int), w'.lvlCell = w.lvlCell →
      wLevel (wSetLevel h w lvl) w' = wrapperClamp lvl) ∧
    (∀ (h : Heap) (l : FLogger) (kvs : List Val),
      (fwith h l kvs).2.levelCell = l.levelCell ∧ (fwith h l kvs).1 = h) ∧
    (∀ (h : Heap) (l : FLogger) (c : List Val),
      (fcontext h l c).2.levelCell = l.levelCell ∧ (fcontext h l c).1 = h) ∧
    (∀ (h : Heap) (l : FLogger) (m : Bool),
      (fmetric h l m).2.levelCell = l.levelCell ∧ (fmetric h l m).1 = h) ∧
    (∀ (h : Heap) (l m : FLogger) (lvl : Int),
      m.levelCell = l.levelCell →
      scopeOf l.args = "" → scopeOf m.args = "" →
      l.scopedLevels.lookup "" = none → m.scopedLevels.lookup "" = none →
      flevel (fsetLevel h l lvl).1 (fsetLevel h l lvl).2 = clampLevel lvl ∧
      flevel (fsetLevel h l lvl).1 m = clampLevel lvl) := by
  refine ⟨fun w kvs => rfl, fun w c => rfl, fun w m => rfl, ?_, ?_,
    fun h l c => ⟨rfl, rfl⟩, fun h l m => ⟨rfl, rfl⟩, ?_⟩
  · intro h w w' lvl hcell
    simp [wLevel, wSetLevel, Heap.set, hcell]
  · intro h l kvs
    by_cases hk : kvs = [] <;> simp [fwith, hk, fclone]
  · intro h l m lvl hcell h1 h2 h3 h4
    refine ⟨fsetLevel_flevel_unscoped h l lvl h1 h3, ?_⟩
    simp [fsetLevel, h1, flevel, h2, h4, Heap.set, hcell]

theorem decoration_preserves_shared_level_witness :
    wLevel (wSetLevel c2w.1 c2w.2 10) (wWith c2w.2 [Val.str "k", Val.str "v"])
        = wrapperClamp 10 ∧
    flevel (fsetLevel c5base.1 c5base.2 10).1 (fsetLevel c5base.1 c5base.2 10).2
        = clampLevel 10 ∧
    flevel (fsetLevel c5base.1 c5base.2 10).1
        (fwith c5base.1 c5base.2 [Val.str "k", Val.str "v"]).2 = clampLevel 10 :=
  ⟨decoration_preserves_shared_level.2.2.2.1 c2w.1 c2w.2
      (wWith c2w.2 [Val.str "k", Val.str "v"]) 10 rfl,
   (decoration_preserves_shared_level.2.2.2.2.2.2.2 c5base.1 c5base.2
      (fwith c5base.1 c5base.2 [Val.str "k", Val.str "v"]).2 10 rfl rfl rfl rfl rfl).1,
   (decoration_preserves_shared_level.2.2.2.2.2.2.2 c5base.1 c5base.2
      (fwith c5base.1 c5base.2 [Val.str "k", Val.str "v"]).2 10 rfl rfl rfl rfl rfl).2⟩

/-! ## C6 — the PanicOnUninitialized flag -/

/-- C6: pre-bind calls are silently swallowed with the flag off and fatal
with it on, as claimed — but the panic check is not guarded by
`s.logger == nil`, so with the flag on a call through an already bound
scope forwards to the backend and then panics as well, where the claim
says bound calls are not fatal. -/
theorem bound_scope_call_panics_when_flag_set :
    scopeDebugCall scEx false = { forwarded := false, panicked := false } ∧
    scopeInfoCall scEx false = { forwarded := false, panicked := false } ∧
    scopeErrorCall scEx false = { forwarded := false, panicked := false } ∧
    scopeInfoCall scEx true = { forwarded := false, panicked := true } ∧
    scopeDebugCall scBound true = { forwarded := true, panicked := true } ∧
    scopeInfoCall scBound true = { forwarded := true, panicked := true } ∧
    scopeErrorCall scBound true = { forwarded := true, panicked := true } := by
  decide

/-! ## C7 — UseLogger is one-shot, first writer wins -/

/-- C7: `UseLogger` is a silent no-op on a nil backend or once a default
logger is installed — the whole registry state, scope table and pending
table included, is returned unchanged — and the first call with a
backend installs a clone of it, leaves the scope table alone and
consumes the pending-decorations table. -/
theorem useLogger_first_writer_wins :
    (∀ w : World, useLogger w none = w) ∧
    (∀ (w : World) (b : FLogger), w.defaultLogger.isSome = true → useLogger w (some b) = w) ∧
    (∀ (w : World) (b : FLogger), w.defaultLogger = none →
      (useLogger w (some b)).defaultLogger = some (fclone w.heap b).2 ∧
      (useLogger w (some b)).pending = none ∧
      (useLogger w (some b)).scopes = w.scopes) := by
  refine ⟨fun w => rfl, ?_, ?_⟩
  · intro w b hw
    simp [useLogger, hw]
  · intro w b hw
    simp [useLogger, hw, fclone]

def wInstalled : World :=
  { heap := heap0, scopeObjs := [], scopes := [], pending := some [],
    defaultLogger := some (fnewLogger heap0 false).2 }

def wFresh : World :=
  { heap := heap0, scopeObjs := [scEx], scopes := [("s", 0)], pending := some [("s", [0])],
    defaultLogger := none }

theorem useLogger_first_writer_wins_witness :
    useLogger wInstalled (some (fnewLogger heap0 false).2) = wInstalled ∧
    (useLogger wFresh (some (fnewLogger heap0 false).2)).pending = none :=
  ⟨useLogger_first_writer_wins.2.1 wInstalled (fnewLogger heap0 false).2 rfl,
   (useLogger_first_writer_wins.2.2 wFresh (fnewLogger heap0 false).2 rfl).2.1⟩

/-! ## C8 — level string round trip -/

/-- C8: for each of the four defined levels, `FromLevel` of its string
form returns it with a true flag; any other string yields the zero value
and a false flag. -/
theorem level_string_roundtrip :
    (∀ l : Int, l = LevelNone ∨ l = LevelError ∨ l = LevelInfo ∨ l = LevelDebug →
      fromLevel (levelString l) = (l, true)) ∧
    (∀ s : String, s ≠ "none" → s ≠ "error" → s ≠ "info" → s ≠ "debug" →
      fromLevel s = (LevelNone, false)) := by
  constructor
  · rintro l (rfl | rfl | rfl | rfl) <;> decide
  · intro s h1 h2 h3 h4
    simp [fromLevel, h1, h2, h3, h4, LevelNone]

theorem level_string_roundtrip_witness :
    fromLevel (levelString LevelInfo) = (LevelInfo, true) ∧
    fromLevel "invalid" = (LevelNone, false) :=
  ⟨level_string_roundtrip.1 LevelInfo (Or.inr (Or.inr (Or.inl rfl))),
   level_string_roundtrip.2 "invalid" (by decide) (by decide) (by decide) (by decide)⟩

/-! ## C9 — per-scope routing of SetLevel -/

/-- A logger decorated with the pair `("scope", "")`. -/
def c9l : Heap × FLogger :=
  fwith (fnewLogger heap0 false).1 (fnewLogger heap0 false).2 [Val.str "scope", Val.str ""]

def c9r : Heap × FLogger := fsetLevel c9l.1 c9l.2 10

/-- C9 counterexample: the key-values do hold a string value under the
key `"scope"` — the empty string — yet `SetLevel` writes the shared cell
(5 becomes 10) and stores nothing per-scope, because the code treats the
scanned empty name as "no scope". -/
theorem empty_scope_value_writes_shared_cell :
    hasScopePair c9l.2.args = true ∧
    c9r.2.scopedLevels = [] ∧
    c9r.1.cells c9l.2.levelCell = 10 ∧
    c9l.1.cells c9l.2.levelCell = 5 := by decide

/-- C9 (amended): `SetLevel` routes on the scanned scope name: when the
scan yields a non-empty name the shared cell is untouched and the clamped
level lands in the logger's own per-scope map where `Level` finds it;
when the scan yields the empty string — no `"scope"` entry, or one whose
following string is empty — the shared cell is written; and `Level`
always prefers the per-scope entry for the scanned name over the shared
cell. -/
theorem setLevel_scope_routing :
    (∀ (h : Heap) (l : FLogger) (lvl : Int), scopeOf l.args ≠ "" →
      (fsetLevel h l lvl).1 = h ∧
      flevel (fsetLevel h l lvl).1 (fsetLevel h l lvl).2 = clampLevel lvl) ∧
    (∀ (h : Heap) (l : FLogger) (lvl : Int), scopeOf l.args = "" →
      l.scopedLevels.lookup "" = none →
      (fsetLevel h l lvl).2 = l ∧
      flevel (fsetLevel h l lvl).1 (fsetLevel h l lvl).2 = clampLevel lvl) ∧
    (∀ (h : Heap) (l : FLogger) (v : Int),
      l.scopedLevels.lookup (scopeOf l.args) = some v → flevel h l = v) ∧
    (∀ (h : Heap) (l : FLogger),
      l.scopedLevels.lookup (scopeOf l.args) = none → flevel h l = h.cells l.levelCell) := by
  refine ⟨?_, ?_, ?_, ?_⟩
  · intro h l lvl h1
    refine ⟨by simp [fsetLevel, h1], ?_⟩
    simp [fsetLevel, h1, flevel, storeScoped_lookup]
  · intro h l lvl h1 h2
    exact ⟨by simp [fsetLevel, h1], fsetLevel_flevel_unscoped h l lvl h1 h2⟩
  · intro h l v hv
    simp [flevel, hv]
  · intro h l hv
    simp [flevel, hv]

theorem setLevel_scope_routing_witness :
    (fsetLevel c5a.1 c5a.2 10).1 = c5a.1 ∧
    flevel (fsetLevel c5a.1 c5a.2 10).1 (fsetLevel c5a.1 c5a.2 10).2 = clampLevel 10 :=
  setLevel_scope_routing.1 c5a.1 c5a.2 10 (by decide)

/-! ## C10 — a nil emit function -/

/-- C10: a logger whose emit function is nil never reaches the emission
branch on `Debug`, `Info` or `Error` — the `enabled` guard is false — yet
`Info` and `Error` still record an attached metric and the
`SetLevel`/`Level` round trip keeps working. -/
theorem nil_emit_function_never_called :
    (∀ (h : Heap) (b : Bool), (fnewLogger h b).2.hasEmit = b) ∧
    (∀ (h : Heap) (l : FLogger), l.hasEmit = false →
      (fdebug h l).emitted = false ∧
      (finfo h l).emitted = false ∧
      (ferror h l).emitted = false ∧
      (l.hasMetric = true →
        (finfo h l).metricObservations = 1 ∧ (ferror h l).metricObservations = 1) ∧
      (∀ lvl : Int, scopeOf l.args = "" → l.scopedLevels.lookup "" = none →
        flevel (fsetLevel h l lvl).1 (fsetLevel h l lvl).2 = clampLevel lvl)) := by
  refine ⟨fun h b => rfl, ?_⟩
  intro h l he
  refine ⟨by simp [fdebug, fenabled, he], by simp [finfo, fenabled, he],
    by simp [ferror, fenabled, he], fun hm => ⟨by simp [finfo, hm], by simp [ferror, hm]⟩, ?_⟩
  intro lvl h1 h2
  exact fsetLevel_flevel_unscoped h l lvl h1 h2

theorem nil_emit_function_never_called_witness :
    (fdebug c5base.1 c5base.2).emitted = false ∧
    (finfo c5base.1 c5base.2).emitted = false ∧
    (ferror c5base.1 c5base.2).emitted = false :=
  ⟨(nil_emit_function_never_called.2 c5base.1 c5base.2 rfl).1,
   (nil_emit_function_never_called.2 c5base.1 c5base.2 rfl).2.1,
   (nil_emit_function_never_called.2 c5base.1 c5base.2 rfl).2.2.1⟩

end Telemetry
